import Mathlib

/-!
Shallow embedding of the MMAP layered agent-evaluation engine
(`mmap_eval/core/evaluator.py`, `mmap_eval/core/result.py`,
`mmap_eval/core/metric.py`, `mmap_eval/core/registry.py`, and the built-in
metrics of `mmap_eval/metrics/`).

Scores are modelled over `ℚ` (Python floats, with aggregation treated as exact
arithmetic).  Python exceptions are modelled with `Except String`.  Agent
outputs and ground truths are duck-typed Python values (mapping-shaped or
object-shaped), modelled by `PyData` below.  Wall-clock time and uuid
generation are external effects and are modelled as constants.
-/

namespace MMAP

/-- Severity levels for metric failures (`core/metric.py`, `Severity`). -/
inductive Severity
  | critical
  | warning
  | info
deriving DecidableEq, Repr

/-- Primitive Python values that occur as intent labels, entity values and
latency numbers: strings, ints, floats (as `ℚ`), bools and `None`. -/
inductive PyPrim
  | str (s : String)
  | int (n : Int)
  | rat (q : ℚ)
  | bool (b : Bool)
  | pynone
deriving DecidableEq, Repr

/-- A Python value stored under a key of an output/ground-truth mapping:
either a primitive or a flat dict (used for the `entities` field). -/
inductive PyVal
  | prim (p : PyPrim)
  | dictP (fields : List (String × PyPrim))
deriving DecidableEq, Repr

/-- An agent output or ground-truth record.  The metrics duck-type these:
`dict` corresponds to a Python mapping (`isinstance(data, dict)` branch),
`obj` to an attribute-shaped object (`hasattr` branch), and `prim` to any
other value (no mapping keys, no matching attributes). -/
inductive PyData
  | dict (fields : List (String × PyVal))
  | obj (attrs : List (String × PyVal))
  | prim (p : PyPrim)
deriving DecidableEq, Repr

/-- Python truthiness of a primitive (`bool(x)`). -/
def PyPrim.truthy : PyPrim → Bool
  | .str s => !s.isEmpty
  | .int n => decide (n ≠ 0)
  | .rat q => decide (q ≠ 0)
  | .bool b => b
  | .pynone => false

/-- Python truthiness of a stored value: a dict is truthy iff non-empty. -/
def PyVal.truthy : PyVal → Bool
  | .prim p => p.truthy
  | .dictP fields => !fields.isEmpty

/-- Python numeric coercion used by comparisons such as
`latency_ms <= self.max_latency_ms`: ints, floats, and bools are numbers;
anything else makes the comparison raise `TypeError`. -/
def pyNumQ : PyVal → Option ℚ
  | .prim (.int n) => some (n : ℚ)
  | .prim (.rat q) => some q
  | .prim (.bool b) => some (if b then 1 else 0)
  | _ => Option.none

/-- `value.items()` viewed as a set: succeeds (with the dict's key/value
pairs) only on dicts; on any other value Python raises `AttributeError`. -/
def pyItemsSet : PyVal → Except String (Finset (String × PyPrim))
  | .dictP fields => .ok fields.toFinset
  | .prim _ => .error "object has no attribute items"

/-- One diagnostic value stored in a `MetricResult.details` mapping. -/
inductive DVal
  | s (v : String)
  | q (v : ℚ)
  | n (v : Nat)
  | b (v : Bool)
  | qList (v : List ℚ)
  | opt (v : Option PyVal)
  | val (v : PyVal)
deriving DecidableEq, Repr

/-- `core/metric.py`, `MetricResult`: result of a single metric evaluation.
`details` is the free-form diagnostic mapping, modelled as an association
list. -/
structure MetricResult where
  metric_name : String
  layer : Nat
  score : ℚ
  threshold : ℚ
  passed : Bool
  severity : Severity
  details : List (String × DVal)
  remediation : Option String
deriving DecidableEq, Repr

/-- The `"total"` entry of a details mapping, when it is a count. -/
def MetricResult.detailTotal (mr : MetricResult) : Option Nat :=
  match mr.details.lookup "total" with
  | some (.n k) => some k
  | _ => Option.none

/-- The `"error"` entry of a details mapping, when present as a string. -/
def MetricResult.detailError (mr : MetricResult) : Option String :=
  match mr.details.lookup "error" with
  | some (.s e) => some e
  | _ => Option.none

namespace IntentAccuracy

/-- `metrics/layer1/intent_accuracy.py`, `_extract_intent`: dict key lookup,
otherwise attribute lookup, otherwise `None`.  A stored Python `None` is
indistinguishable from a missing field at the `is None` check, so both are
`Option.none` here. -/
def extract_intent : PyData → Option PyVal
  | .dict fields =>
      match fields.lookup "intent" with
      | some (.prim .pynone) => Option.none
      | some v => some v
      | Option.none => Option.none
  | .obj attrs =>
      match attrs.lookup "intent" with
      | some (.prim .pynone) => Option.none
      | some v => some v
      | Option.none => Option.none
  | .prim _ => Option.none

/-- `metrics/layer1/intent_accuracy.py`, `IntentAccuracy.evaluate`.  The
metric is constructed with a `threshold` and a `severity` (defaults 0.9 and
CRITICAL).  Value comparison (`==`) never raises on these types, so the only
failure path is the detected missing-intent field. -/
def evaluate (threshold : ℚ) (severity : Severity)
    (output ground_truth : PyData) : MetricResult :=
  match extract_intent output, extract_intent ground_truth with
  | some p, some t =>
      let score : ℚ := if p = t then 1 else 0
      let passed : Bool := decide (score ≥ threshold)
      { metric_name := "Intent Accuracy"
        layer := 1
        score := score
        threshold := threshold
        passed := passed
        severity := severity
        details := [("predicted", DVal.opt (some p)), ("expected", DVal.opt (some t)),
                    ("match", DVal.b (decide (p = t)))]
        remediation :=
          if passed then Option.none
          else some "Review intent classification logic and training data" }
  | p?, t? =>
      let passed : Bool := decide ((0 : ℚ) ≥ threshold)
      { metric_name := "Intent Accuracy"
        layer := 1
        score := 0
        threshold := threshold
        passed := passed
        severity := severity
        details := [("error", DVal.s "Missing intent field"),
                    ("predicted", DVal.opt p?), ("expected", DVal.opt t?)]
        remediation :=
          if passed then Option.none
          else some "Review intent classification logic and training data" }

end IntentAccuracy

namespace EntityExtractionAccuracy

/-- `metrics/layer1/entity_extraction.py`, `_extract_entities`:
`data.get("entities", {})` on a dict (so a missing key defaults to the empty
dict `{}`, while a stored `None` value is `None`), attribute lookup on an
object, `None` otherwise. -/
def extract_entities : PyData → Option PyVal
  | .dict fields =>
      match fields.lookup "entities" with
      | some (.prim .pynone) => Option.none
      | some v => some v
      | Option.none => some (.dictP [])
  | .obj attrs =>
      match attrs.lookup "entities" with
      | some (.prim .pynone) => Option.none
      | some v => some v
      | Option.none => Option.none
  | .prim _ => Option.none

/-- `metrics/layer1/entity_extraction.py`, `_calculate_f1`.  Mirrors the
source: if the ground-truth value is falsy, return
`(1.0 if not predicted else 0.0, 1.0, 1.0)` without touching `.items()`;
otherwise take `set(predicted.items())` / `set(true.items())` (raising on
non-dicts), and compute precision, recall and F1 with the 0-denominator
conventions of the source. -/
def calculate_f1 (predicted truth : PyVal) : Except String (ℚ × ℚ × ℚ) :=
  if !truth.truthy then
    .ok (if !predicted.truthy then 1 else 0, 1, 1)
  else
    match pyItemsSet predicted, pyItemsSet truth with
    | .error e, _ => .error e
    | .ok _, .error e => .error e
    | .ok pred_items, .ok true_items =>
        let tp : ℚ := ((pred_items ∩ true_items).card : ℚ)
        let fpos : ℚ := ((pred_items \ true_items).card : ℚ)
        let fneg : ℚ := ((true_items \ pred_items).card : ℚ)
        let precision : ℚ := if tp + fpos > 0 then tp / (tp + fpos) else 0
        let recallV : ℚ := if tp + fneg > 0 then tp / (tp + fneg) else 0
        let f1 : ℚ :=
          if precision + recallV = 0 then 0
          else 2 * (precision * recallV) / (precision + recallV)
        .ok (f1, precision, recallV)

/-- `metrics/layer1/entity_extraction.py`, `EntityExtractionAccuracy.evaluate`
(threshold default 0.85, severity default WARNING).  A malformed entities
value makes `_calculate_f1` raise inside the `try`, which the metric catches
and converts to a CRITICAL error result; a detected missing field produces
the non-exception error result with the metric's own severity. -/
def evaluate (threshold : ℚ) (severity : Severity)
    (output ground_truth : PyData) : MetricResult :=
  match extract_entities output, extract_entities ground_truth with
  | some pred, some truth =>
      match calculate_f1 pred truth with
      | .ok (score, precision, recallV) =>
          let passed : Bool := decide (score ≥ threshold)
          { metric_name := "Entity Extraction Accuracy"
            layer := 1
            score := score
            threshold := threshold
            passed := passed
            severity := severity
            details := [("predicted", DVal.val pred), ("expected", DVal.val truth),
                        ("precision", DVal.q precision), ("recall", DVal.q recallV),
                        ("f1_score", DVal.q score)]
            remediation :=
              if passed then Option.none
              else some "Review entity extraction logic and improve NER model" }
      | .error e =>
          { metric_name := "Entity Extraction Accuracy"
            layer := 1
            score := 0
            threshold := threshold
            passed := false
            severity := Severity.critical
            details := [("error", DVal.s e)]
            remediation := some ("Fix error in entity extraction evaluation: " ++ e) }
  | _, _ =>
      let passed : Bool := decide ((0 : ℚ) ≥ threshold)
      { metric_name := "Entity Extraction Accuracy"
        layer := 1
        score := 0
        threshold := threshold
        passed := passed
        severity := severity
        details := [("error", DVal.s "Missing entities field")]
        remediation :=
          if passed then Option.none
          else some "Review entity extraction logic and improve NER model" }

end EntityExtractionAccuracy

/-- Spec-side precision for structured-field overlap, written from the spec's
words: fraction of predicted pairs that are expected (0 when nothing was
predicted). -/
def specPrecision (pred exp : Finset (String × PyPrim)) : ℚ :=
  if pred = ∅ then 0 else ((pred ∩ exp).card : ℚ) / (pred.card : ℚ)

/-- Spec-side recall: fraction of expected pairs that were predicted (0 when
nothing was expected). -/
def specRecall (pred exp : Finset (String × PyPrim)) : ℚ :=
  if exp = ∅ then 0 else ((pred ∩ exp).card : ℚ) / (exp.card : ℚ)

/-- Spec-side F1, written from the spec's words:
`F1 = 2·P·R/(P+R)`, defined as 0 when `P+R = 0`. -/
def specF1 (pred exp : Finset (String × PyPrim)) : ℚ :=
  let p := specPrecision pred exp
  let r := specRecall pred exp
  if p + r = 0 then 0 else 2 * p * r / (p + r)

namespace APILatency

/-- Kwargs that `_extract_latency` may look at besides the output
(`metrics/layer3/api_latency.py`).  When called through the evaluator only
`test_case` is passed, so all three are absent there. -/
structure LatencyKwargs where
  start_time : Option ℚ
  end_time : Option ℚ
  execution_time_ms : Option ℚ
deriving DecidableEq, Repr

/-- The kwargs the evaluator passes (`test_case` only). -/
def noKwargs : LatencyKwargs :=
  { start_time := Option.none, end_time := Option.none,
    execution_time_ms := Option.none }

/-- The kwargs fallbacks of `_extract_latency`: `start_time`/`end_time`
difference in ms, then `execution_time_ms`. -/
def latencyFromKwargs (kwargs : LatencyKwargs) : Option PyVal :=
  match kwargs.start_time, kwargs.end_time with
  | some s, some e => some (.prim (.rat ((e - s) * 1000)))
  | _, _ =>
      match kwargs.execution_time_ms with
      | some x => some (.prim (.rat x))
      | Option.none => Option.none

/-- `metrics/layer3/api_latency.py`, `_extract_latency`: the `latency_ms`
key of a dict output (returned verbatim, even a stored `None`), else the
`latency_ms` attribute, else the kwargs fallbacks, else `None`. -/
def extract_latency (output : PyData) (kwargs : LatencyKwargs) : Option PyVal :=
  match output with
  | .dict fields =>
      match fields.lookup "latency_ms" with
      | some v => some v
      | Option.none => latencyFromKwargs kwargs
  | .obj attrs =>
      match attrs.lookup "latency_ms" with
      | some v => some v
      | Option.none => latencyFromKwargs kwargs
  | .prim _ => latencyFromKwargs kwargs

/-- `metrics/layer3/api_latency.py`, `APILatency.evaluate` (constructor
arguments `max_latency_ms`, `threshold`, `severity`; defaults 2000.0, 0.95,
WARNING).  A non-numeric latency value makes the `<=` comparison raise
`TypeError` inside the `try`, caught and converted to the CRITICAL error
result. -/
def evaluate (max_latency_ms threshold : ℚ) (severity : Severity)
    (output _ground_truth : PyData) (kwargs : LatencyKwargs) : MetricResult :=
  match extract_latency output kwargs with
  | Option.none =>
      let passed : Bool := decide ((0 : ℚ) ≥ threshold)
      { metric_name := "API Latency"
        layer := 3
        score := 0
        threshold := threshold
        passed := passed
        severity := severity
        details := [("error", DVal.s "No latency information available")]
        remediation :=
          if passed then Option.none
          else some "Optimize agent processing time and reduce API calls" }
  | some v =>
      if v = .prim .pynone then
        -- `latency_ms is None` for a stored None value
        let passed : Bool := decide ((0 : ℚ) ≥ threshold)
        { metric_name := "API Latency"
          layer := 3
          score := 0
          threshold := threshold
          passed := passed
          severity := severity
          details := [("error", DVal.s "No latency information available")]
          remediation :=
            if passed then Option.none
            else some "Optimize agent processing time and reduce API calls" }
      else
        match pyNumQ v with
        | Option.none =>
            { metric_name := "API Latency"
              layer := 3
              score := 0
              threshold := threshold
              passed := false
              severity := Severity.critical
              details := [("error", DVal.s "unsupported comparison for latency value")]
              remediation := some "Fix error in latency measurement: unsupported comparison for latency value" }
        | some latency_ms =>
            let score0 : ℚ :=
              if latency_ms ≤ max_latency_ms then 1 else max_latency_ms / latency_ms
            let score : ℚ := max 0 (min 1 score0)
            let passed : Bool := decide (score ≥ threshold)
            { metric_name := "API Latency"
              layer := 3
              score := score
              threshold := threshold
              passed := passed
              severity := severity
              details := [("latency_ms", DVal.q latency_ms),
                          ("max_latency_ms", DVal.q max_latency_ms),
                          ("within_limit", DVal.b (decide (latency_ms ≤ max_latency_ms)))]
              remediation :=
                if passed then Option.none
                else some "Optimize agent processing time and reduce API calls" }

end APILatency

/-- `core/test_loader.py`, `TestCase`: immutable input / expected-output
record. -/
structure TestCase where
  id : String
  input : PyData
  ground_truth : PyData
  tags : List String
deriving DecidableEq, Repr

/-- An agent: a callable taking the test-case input and returning an output,
possibly raising (`Except.error`). -/
def Agent : Type := PyData → Except String PyData

/-- `core/metric.py`, `BaseMetric`: the configuration attributes plus the
polymorphic `evaluate(output, ground_truth, **kwargs)` operation.  `evaluate`
is `Except`-valued because a metric body may raise (the evaluator's `try`
would catch it); the built-in metrics modelled above never do. -/
structure Metric where
  name : String
  layer : Nat
  threshold : ℚ
  severity : Severity
  evaluate : PyData → PyData → TestCase → Except String MetricResult

/-- `core/registry.py`, `MetricRegistry`: metrics partitioned into the five
fixed layer buckets (`_metrics`, in registration order) plus the name index
(`_metrics_by_name`, as an association list). -/
structure MetricRegistry where
  layer1 : List Metric
  layer2 : List Metric
  layer3 : List Metric
  layer4 : List Metric
  layer5 : List Metric
  byName : List (String × Metric)

/-- The `_metrics[layer]` bucket for a layer in 1..5.  (The source's
`get_metrics_by_layer` raises for a layer outside 1..5; the evaluator only
calls it with the literals 1..5, so the total bucket view suffices there.) -/
def MetricRegistry.bucket (r : MetricRegistry) (layer : Nat) : List Metric :=
  match layer with
  | 1 => r.layer1
  | 2 => r.layer2
  | 3 => r.layer3
  | 4 => r.layer4
  | _ => r.layer5

/-- `core/registry.py`, `get_metrics_by_layer`: a copy of the bucket, or
`ValueError` for a layer outside the fixed partition. -/
def MetricRegistry.get_metrics_by_layer (r : MetricRegistry) (layer : Nat) :
    Except String (List Metric) :=
  if 1 ≤ layer ∧ layer ≤ 5 then .ok (r.bucket layer)
  else .error "Invalid layer"

/-- `core/registry.py`, `count`: `len(self._metrics_by_name)`. -/
def MetricRegistry.count (r : MetricRegistry) : Nat :=
  r.byName.length

/-- `core/result.py`, `LayerResult` (the `critical_issues` field always keeps
its default empty value in the evaluator, so it is omitted). -/
structure LayerResult where
  layer_number : Nat
  layer_name : String
  score : ℚ
  status : String
  metrics : List MetricResult
deriving DecidableEq, Repr

/-- `core/result.py`, `LayerResult.passed` property: all metrics passed. -/
def LayerResult.passed (l : LayerResult) : Bool :=
  l.metrics.all (fun m => m.passed)

/-- `core/result.py`, `LayerResult.get_failed_metrics`. -/
def LayerResult.get_failed_metrics (l : LayerResult) : List MetricResult :=
  l.metrics.filter (fun m => !m.passed)

/-- `core/result.py`, `LayerResult.get_critical_failures`: metrics with
`not passed and severity == CRITICAL`. -/
def LayerResult.get_critical_failures (l : LayerResult) : List MetricResult :=
  l.metrics.filter (fun m => !m.passed && decide (m.severity = Severity.critical))

/-- `core/result.py`, `EvaluationResult`.  `timestamp` and `metadata` are
constant external effects and are omitted. -/
structure EvaluationResult where
  evaluation_id : String
  agent_id : String
  overall_score : ℚ
  layers : List LayerResult
  critical_issues : List String
  test_cases_count : Nat
  duration_seconds : ℚ
  passed : Bool
deriving DecidableEq, Repr

/-- `core/result.py`, `EvaluationResult.get_layer_by_number`: first layer with
the given number, else `None`. -/
def EvaluationResult.get_layer_by_number (r : EvaluationResult) (n : Nat) :
    Option LayerResult :=
  r.layers.find? (fun l => decide (l.layer_number = n))

/-- `core/result.py`, `EvaluationResult.get_failed_layers`. -/
def EvaluationResult.get_failed_layers (r : EvaluationResult) : List LayerResult :=
  r.layers.filter (fun l => !l.passed)

/-- `core/evaluator.py`, `AgentEvaluator`: the mutable instance attributes
`agent`, `agent_id`, `registry`, `test_cases`. -/
structure AgentEvaluator where
  agent : Agent
  agent_id : String
  registry : MetricRegistry
  test_cases : List TestCase

/-- `core/evaluator.py`, `AgentEvaluator.LAYER_NAMES`. -/
def LAYER_NAMES : Nat → String
  | 1 => "Input/Output Validation"
  | 2 => "Model Performance"
  | 3 => "System Integration"
  | 4 => "Business Logic"
  | _ => "Fairness & Compliance"

/-- The body of the per-(metric, test case) `try` in `_evaluate_layer`
(`core/evaluator.py` lines 181-206): run the agent on the test-case input,
then the metric on (output, ground truth); any exception from either is
caught and converted to a synthesized per-test-case `MetricResult` with
score 0.0, severity CRITICAL and the exception text under `details["error"]`. -/
def evalTestCase (agent : Agent) (metric : Metric) (tc : TestCase) : MetricResult :=
  match (do
      let output ← agent tc.input
      metric.evaluate output tc.ground_truth tc : Except String MetricResult) with
  | .ok r => r
  | .error e =>
      { metric_name := metric.name
        layer := metric.layer
        score := 0
        threshold := metric.threshold
        passed := false
        severity := Severity.critical
        details := [("error", DVal.s e)]
        remediation := some ("Fix error in " ++ metric.name ++ " evaluation: " ++ e) }

/-- The metric-level aggregation of `_evaluate_layer`: unweighted mean of the
per-test-case scores, `passed = avg_score >= metric.threshold`, the metric's
own severity, and the count/score details.  (In the source an empty
`test_results` list would raise `ZeroDivisionError`; `evaluate` only reaches
this with a non-empty test-case list.  `ℚ` division by zero is total here.) -/
def aggregateMetric (metric : Metric) (test_results : List MetricResult) : MetricResult :=
  let avg_score : ℚ := (test_results.map (fun r => r.score)).sum / (test_results.length : ℚ)
  let passed : Bool := decide (avg_score ≥ metric.threshold)
  { metric_name := metric.name
    layer := metric.layer
    score := avg_score
    threshold := metric.threshold
    passed := passed
    severity := metric.severity
    details := [("correct", DVal.n (test_results.countP (fun r => r.passed))),
                ("total", DVal.n test_results.length),
                ("individual_scores", DVal.qList (test_results.map (fun r => r.score)))]
    remediation :=
      if passed then Option.none
      else some (metric.name ++ " below threshold. Review agent implementation.") }

/-- The `metric_results` list of `_evaluate_layer`: one aggregated
`MetricResult` per metric registered in the layer (in registration order),
each over all test cases. -/
def layerMetricResults (ev : AgentEvaluator) (layer_num : Nat)
    (test_cases : List TestCase) : List MetricResult :=
  (ev.registry.bucket layer_num).map
    (fun m => aggregateMetric m (test_cases.map (evalTestCase ev.agent m)))

/-- `core/evaluator.py`, `_evaluate_layer`: a vacuous perfect-score
`LayerResult` when the layer's bucket is empty, otherwise one aggregated
`MetricResult` per registered metric (in registration order, each over all
test cases), layer score the unweighted mean of the metric scores, and
status `"pass"` iff every metric passed. -/
def evaluate_layer (ev : AgentEvaluator) (layer_num : Nat)
    (test_cases : List TestCase) : LayerResult :=
  if (ev.registry.bucket layer_num).isEmpty then
    { layer_number := layer_num
      layer_name := LAYER_NAMES layer_num
      score := 1
      status := "pass"
      metrics := [] }
  else
    { layer_number := layer_num
      layer_name := LAYER_NAMES layer_num
      score := ((layerMetricResults ev layer_num test_cases).map (fun m => m.score)).sum /
        ((layerMetricResults ev layer_num test_cases).length : ℚ)
      status :=
        if (layerMetricResults ev layer_num test_cases).all (fun m => m.passed) then "pass"
        else "fail"
      metrics := layerMetricResults ev layer_num test_cases }

/-- `cases_to_evaluate = test_cases or self.test_cases` (`core/evaluator.py`
line 114): Python `or` falls back to the loaded dataset both when the
argument is omitted (`None`) and when it is an explicitly passed empty list
(both are falsy). -/
def resolveCases (ev : AgentEvaluator) (test_cases : Option (List TestCase)) :
    List TestCase :=
  match test_cases with
  | some l => if l.isEmpty then ev.test_cases else l
  | Option.none => ev.test_cases

/-- The formatted critical-issue strings collected for one layer
(`core/evaluator.py` lines 130-132): one string per critical failure, using
`details.get("error", "Critical failure")`. -/
def criticalIssueStrings (lr : LayerResult) : List String :=
  lr.get_critical_failures.map (fun mr =>
    "Layer " ++ toString lr.layer_number ++ " - " ++ mr.metric_name ++ ": " ++
      (match mr.detailError with
       | some e => e
       | Option.none => "Critical failure"))

/-- The successful tail of `evaluate` (`core/evaluator.py` lines 121-151):
the five layers in order 1..5, the flattened critical issues, the overall
score as the mean of the five layer scores, and
`passed = len(critical_issues) == 0`. -/
def evaluateBody (ev : AgentEvaluator) (cases : List TestCase) : EvaluationResult :=
  let layer_results := (List.range 5).map (fun i => evaluate_layer ev (i + 1) cases)
  let all_critical_issues := layer_results.flatMap criticalIssueStrings
  { evaluation_id := "eval_0"
    agent_id := ev.agent_id
    overall_score := (layer_results.map (fun l => l.score)).sum / (layer_results.length : ℚ)
    layers := layer_results
    critical_issues := all_critical_issues
    test_cases_count := cases.length
    duration_seconds := 0
    passed := all_critical_issues.isEmpty }

/-- `core/evaluator.py`, `AgentEvaluator.evaluate`: resolve the test-case
list, fail fast on an empty list or an empty registry, otherwise run the five
layers and assemble the result. -/
def AgentEvaluator.evaluate (ev : AgentEvaluator)
    (test_cases : Option (List TestCase)) : Except String EvaluationResult :=
  if (resolveCases ev test_cases).isEmpty then
    .error "No test cases provided for evaluation"
  else if ev.registry.count = 0 then
    .error "No metrics registered for evaluation"
  else
    .ok (evaluateBody ev (resolveCases ev test_cases))

/-- The dataset resolution at the top of `compare` (`core/evaluator.py` lines
258-263): `test_cases` stays `None` (so each `evaluate` call falls back to
the loaded dataset) when no dataset is passed or the passed list is falsy
(empty).  File-path datasets go through the external loader and are modelled
as the already-loaded list. -/
def resolveCompareDataset (test_dataset : Option (List TestCase)) :
    Option (List TestCase) :=
  match test_dataset with
  | some l => if l.isEmpty then Option.none else some l
  | Option.none => Option.none

/-- The `for i, agent in enumerate(agents)` loop of `compare`
(`core/evaluator.py` lines 265-269): rebind `self.agent` and
`self.agent_id = f"agent_{i+1}"`, run `evaluate`, collect the result.  An
exception from `evaluate` propagates (there is no `finally`). -/
def compareLoop (ev : AgentEvaluator) (test_cases : Option (List TestCase))
    (agents : List Agent) (i : Nat) (acc : List EvaluationResult) :
    Except String (List EvaluationResult × AgentEvaluator) :=
  match agents with
  | [] => .ok (acc.reverse, ev)
  | a :: rest =>
      let ev' : AgentEvaluator :=
        { ev with agent := a, agent_id := "agent_" ++ toString (i + 1) }
      match ev'.evaluate test_cases with
      | .error e => .error e
      | .ok r => compareLoop ev' test_cases rest (i + 1) (r :: acc)

/-- `core/evaluator.py`, `AgentEvaluator.compare`: run `evaluate` once per
agent against the same resolved dataset, then restore only the original
`agent` reference (`self.agent = original_agent`; `agent_id` is left as the
last loop iteration set it). -/
def AgentEvaluator.compare (ev : AgentEvaluator) (agents : List Agent)
    (test_dataset : Option (List TestCase)) :
    Except String (List EvaluationResult × AgentEvaluator) :=
  let original_agent := ev.agent
  let test_cases := resolveCompareDataset test_dataset
  match compareLoop ev test_cases agents 0 [] with
  | .error e => .error e
  | .ok (results, ev') => .ok (results, { ev' with agent := original_agent })

/-!  Concrete fixtures used by the closed witness and counterexample
theorems: a registered `IntentAccuracy` metric, two test cases, a
well-behaved agent and an agent that raises on the second input. -/

/-- An `IntentAccuracy` instance as a registered metric (the evaluator calls
`metric.evaluate(output, ground_truth, test_case=...)`; the test-case kwarg
is unused by this metric). -/
def IntentAccuracy.metric (threshold : ℚ) (severity : Severity) : Metric :=
  { name := "Intent Accuracy"
    layer := 1
    threshold := threshold
    severity := severity
    evaluate := fun output ground_truth _tc =>
      .ok (IntentAccuracy.evaluate threshold severity output ground_truth) }

def witTC1 : TestCase :=
  { id := "tc1"
    input := .dict [("query", .prim (.str "please refund my order"))]
    ground_truth := .dict [("intent", .prim (.str "refund_request"))]
    tags := [] }

def witTC2 : TestCase :=
  { id := "tc2"
    input := .dict [("query", .prim (.str "where is my order"))]
    ground_truth := .dict [("intent", .prim (.str "order_status"))]
    tags := [] }

def witAgentGood : Agent := fun _inp =>
  .ok (.dict [("intent", .prim (.str "refund_request"))])

def witAgentFlaky : Agent := fun inp =>
  if inp = witTC2.input then .error "simulated agent crash"
  else .ok (.dict [("intent", .prim (.str "refund_request"))])

def witIntentMetric : Metric := IntentAccuracy.metric (9 / 10) Severity.critical

def witRegistry : MetricRegistry :=
  { layer1 := [witIntentMetric]
    layer2 := []
    layer3 := []
    layer4 := []
    layer5 := []
    byName := [("Intent Accuracy", witIntentMetric)] }

def witEv : AgentEvaluator :=
  { agent := witAgentGood
    agent_id := "agent_original"
    registry := witRegistry
    test_cases := [witTC1] }

def witEvFlaky : AgentEvaluator :=
  { agent := witAgentFlaky
    agent_id := "agent_original"
    registry := witRegistry
    test_cases := [witTC1, witTC2] }

def emptyEvalResult : EvaluationResult :=
  { evaluation_id := ""
    agent_id := ""
    overall_score := 0
    layers := []
    critical_issues := []
    test_cases_count := 0
    duration_seconds := 0
    passed := false }

def witResult1 : EvaluationResult :=
  (witEv.evaluate (some [witTC1])).toOption.getD emptyEvalResult

def witResultFlaky : EvaluationResult :=
  (witEvFlaky.evaluate Option.none).toOption.getD emptyEvalResult

def witCompareAgents : List Agent := [witAgentGood, witAgentGood]

def witComparePair : List EvaluationResult × AgentEvaluator :=
  match witEv.compare witCompareAgents Option.none with
  | .ok p => p
  | .error _ => ([], witEv)

def witLatencyOutput : PyData := .dict [("latency_ms", .prim (.rat 4000))]

def witEvNoCases : AgentEvaluator :=
  { agent := witAgentGood
    agent_id := "agent_original"
    registry := witRegistry
    test_cases := [] }

/-- The F1 component of a `_calculate_f1` outcome (for stating properties of
the score alone). -/
def f1Score (r : Except String (ℚ × ℚ × ℚ)) : Option ℚ :=
  match r with
  | .ok (f1, _, _) => some f1
  | .error _ => Option.none

/-! ## Helper lemmas -/

theorem resolveCases_agent_irrel (ev : AgentEvaluator) (g : Agent)
    (tcs : Option (List TestCase)) :
    resolveCases { ev with agent := g } tcs = resolveCases ev tcs := by
  cases tcs <;> rfl

theorem evaluate_ok_iff (ev : AgentEvaluator) (tcs : Option (List TestCase))
    (r : EvaluationResult) :
    ev.evaluate tcs = .ok r ↔
      resolveCases ev tcs ≠ [] ∧ ev.registry.count ≠ 0 ∧
        r = evaluateBody ev (resolveCases ev tcs) := by
  unfold AgentEvaluator.evaluate
  by_cases h1 : (resolveCases ev tcs).isEmpty
  · rw [if_pos h1]
    simp [List.isEmpty_iff.mp h1]
  · rw [if_neg h1]
    by_cases h2 : ev.registry.count = 0
    · rw [if_pos h2]
      simp [h2]
    · rw [if_neg h2]
      simp only [Except.ok.injEq]
      constructor
      · intro h
        exact ⟨fun hnil => h1 (List.isEmpty_iff.mpr hnil), h2, h.symm⟩
      · rintro ⟨-, -, rfl⟩
        rfl

theorem criticalIssueStrings_eq_nil_iff (lr : LayerResult) :
    criticalIssueStrings lr = [] ↔
      ∀ m ∈ lr.metrics, ¬(m.severity = Severity.critical ∧ m.passed = false) := by
  unfold criticalIssueStrings LayerResult.get_critical_failures
  rw [List.map_eq_nil_iff, List.filter_eq_nil_iff]
  constructor
  · intro h m hm hcontra
    have := h m hm
    simp only [Bool.and_eq_true, Bool.not_eq_true', decide_eq_true_eq, not_and] at this
    exact this hcontra.2 hcontra.1
  · intro h m hm hb
    simp only [Bool.and_eq_true, Bool.not_eq_true', decide_eq_true_eq] at hb
    exact h m hm ⟨hb.2, hb.1⟩

theorem flat_critical_nil_iff (L : List LayerResult) :
    L.flatMap criticalIssueStrings = [] ↔
      ∀ l ∈ L, ∀ m ∈ l.metrics,
        ¬(m.severity = Severity.critical ∧ m.passed = false) := by
  rw [List.flatMap_eq_nil_iff]
  constructor
  · intro h l hl
    exact (criticalIssueStrings_eq_nil_iff l).mp (h l hl)
  · intro h l hl
    exact (criticalIssueStrings_eq_nil_iff l).mpr (h l hl)

theorem evaluate_layer_number (ev : AgentEvaluator) (n : Nat) (cs : List TestCase) :
    (evaluate_layer ev n cs).layer_number = n := by
  by_cases h : (ev.registry.bucket n).isEmpty <;> simp [evaluate_layer, h]

theorem evaluate_layer_vacuous (ev : AgentEvaluator) (n : Nat) (cs : List TestCase)
    (h : ev.registry.bucket n = []) :
    evaluate_layer ev n cs =
      { layer_number := n, layer_name := LAYER_NAMES n, score := 1,
        status := "pass", metrics := [] } := by
  simp [evaluate_layer, h]

theorem evaluate_layer_metrics (ev : AgentEvaluator) (n : Nat) (cs : List TestCase)
    (h : ev.registry.bucket n ≠ []) :
    (evaluate_layer ev n cs).metrics = layerMetricResults ev n cs := by
  have hne : (ev.registry.bucket n).isEmpty = false := by
    cases hb : ev.registry.bucket n with
    | nil => exact absurd hb h
    | cons a as => rfl
  simp [evaluate_layer, hne]

theorem aggregateMetric_detailTotal (m : Metric) (rs : List MetricResult) :
    (aggregateMetric m rs).detailTotal = some rs.length := rfl

/-! ## Claim theorems -/

/-- Claim C1: for every completed `evaluate()` call, the returned
`EvaluationResult.passed` is true iff no `MetricResult` anywhere in the
result tree has `severity = CRITICAL` and `passed = false`; WARNING/INFO
failures never make the overall evaluation fail. -/
theorem C1_passed_iff_no_critical_failures (ev : AgentEvaluator)
    (tcs : Option (List TestCase)) (r : EvaluationResult)
    (h : ev.evaluate tcs = .ok r) :
    r.passed = true ↔
      ∀ l ∈ r.layers, ∀ m ∈ l.metrics,
        ¬(m.severity = Severity.critical ∧ m.passed = false) := by
  obtain ⟨-, -, rfl⟩ := (evaluate_ok_iff ev tcs r).mp h
  show (((List.range 5).map
      (fun i => evaluate_layer ev (i + 1) (resolveCases ev tcs))).flatMap
        criticalIssueStrings).isEmpty = true ↔ _
  rw [List.isEmpty_iff]
  exact flat_critical_nil_iff _

/-- Closed witness for C1 at a concrete one-metric, one-test-case
evaluation. -/
theorem C1_witness :
    witResult1.passed = true ↔
      ∀ l ∈ witResult1.layers, ∀ m ∈ l.metrics,
        ¬(m.severity = Severity.critical ∧ m.passed = false) :=
  C1_passed_iff_no_critical_failures witEv (some [witTC1]) witResult1 rfl

/-- Counterexample to claim C2 as stated: with a non-empty loaded dataset, an
explicitly passed empty test-case list does not cause the no-test-cases
failure — `evaluate` succeeds, because Python's
`test_cases or self.test_cases` treats an empty explicit list as falsy and
falls back to the loaded dataset. -/
theorem C2_counterexample :
    (witEv.evaluate (some [])).toOption.isSome = true := by rfl

/-- Claim C2 (amended): a non-empty explicit `test_cases` argument overrides
the loaded dataset, but an explicitly passed empty list falls back to the
loaded dataset; `evaluate()` fails with the no-test-cases error iff the
resolved list is empty, and otherwise with the no-metrics error if the
registry holds zero metrics, in both cases before any agent is invoked (the
outcome is independent of the bound agent). -/
theorem C2_entry_checks (ev : AgentEvaluator) (l : List TestCase) (g : Agent)
    (tcs : Option (List TestCase)) :
    (l ≠ [] → resolveCases ev (some l) = l) ∧
    (resolveCases ev (some []) = ev.test_cases) ∧
    (resolveCases ev tcs = [] →
      ev.evaluate tcs = .error "No test cases provided for evaluation" ∧
      AgentEvaluator.evaluate { ev with agent := g } tcs = ev.evaluate tcs) ∧
    (resolveCases ev tcs ≠ [] → ev.registry.count = 0 →
      ev.evaluate tcs = .error "No metrics registered for evaluation" ∧
      AgentEvaluator.evaluate { ev with agent := g } tcs = ev.evaluate tcs) := by
  refine ⟨?_, rfl, ?_, ?_⟩
  · intro hl
    cases l with
    | nil => exact absurd rfl hl
    | cons a as => rfl
  · intro h0
    have hEmp : (resolveCases ev tcs).isEmpty = true := by
      rw [h0]; rfl
    have hEmp' : (resolveCases { ev with agent := g } tcs).isEmpty = true := by
      rw [resolveCases_agent_irrel, h0]; rfl
    constructor
    · unfold AgentEvaluator.evaluate
      rw [if_pos hEmp]
    · unfold AgentEvaluator.evaluate
      rw [if_pos hEmp, if_pos hEmp']
  · intro h0 hcnt
    have hEmp : (resolveCases ev tcs).isEmpty = false := by
      cases hres : resolveCases ev tcs with
      | nil => exact absurd hres h0
      | cons a as => rfl
    have hEmp' : (resolveCases { ev with agent := g } tcs).isEmpty = false := by
      rw [resolveCases_agent_irrel]; exact hEmp
    have hcnt' : MetricRegistry.count (AgentEvaluator.registry { ev with agent := g }) = 0 := hcnt
    constructor
    · unfold AgentEvaluator.evaluate
      rw [hEmp]
      simp only [Bool.false_eq_true, if_false]
      rw [if_pos hcnt]
    · unfold AgentEvaluator.evaluate
      rw [hEmp, hEmp']
      simp only [Bool.false_eq_true, if_false]
      rw [if_pos hcnt, if_pos hcnt']

/-- Closed witness for the amended C2: a non-empty explicit list overrides,
and an evaluator with no loaded test cases fails with the no-test-cases
error. -/
theorem C2_witness :
    resolveCases witEv (some [witTC2]) = [witTC2] ∧
    witEvNoCases.evaluate Option.none = .error "No test cases provided for evaluation" :=
  ⟨(C2_entry_checks witEv [witTC2] witAgentGood Option.none).1 (List.cons_ne_nil _ _),
   ((C2_entry_checks witEvNoCases [witTC2] witAgentGood Option.none).2.2.1 rfl).1⟩

/-- Counterexample to claim C3 as stated: `EntityExtractionAccuracy` at its
default WARNING severity, evaluated on an output with no entities
field/attribute, returns the internal-failure result (score 0, an `error`
detail) but with severity WARNING, not the claimed CRITICAL. -/
theorem C3_counterexample :
    (EntityExtractionAccuracy.evaluate (85 / 100) Severity.warning
        (.prim (.str "no entities here"))
        (.dict [("entities", .dictP [("amount", .int 50)])])).severity ≠
      Severity.critical ∧
    (EntityExtractionAccuracy.evaluate (85 / 100) Severity.warning
        (.prim (.str "no entities here"))
        (.dict [("entities", .dictP [("amount", .int 50)])])).detailError =
      some "Missing entities field" := by
  constructor
  · intro h
    exact absurd h (by decide)
  · rfl

/-- Claim C3 (amended): the cited Layer-1 metrics never propagate an internal
failure.  A failure caught as an exception (malformed entities value) yields
score 0.0, `passed = false`, severity CRITICAL and the cause under
`details["error"]`; a detected missing required field yields score 0.0 and
the cause under `details["error"]`, but carries the metric's configured
severity, with `passed = (0.0 ≥ threshold)`. -/
theorem C3_failure_result_shape (threshold : ℚ) (sev : Severity)
    (output ground_truth : PyData) :
    ((IntentAccuracy.extract_intent output = Option.none ∨
        IntentAccuracy.extract_intent ground_truth = Option.none) →
      (IntentAccuracy.evaluate threshold sev output ground_truth).score = 0 ∧
      (IntentAccuracy.evaluate threshold sev output ground_truth).severity = sev ∧
      (IntentAccuracy.evaluate threshold sev output ground_truth).detailError =
        some "Missing intent field" ∧
      (IntentAccuracy.evaluate threshold sev output ground_truth).passed =
        decide ((0 : ℚ) ≥ threshold)) ∧
    ((EntityExtractionAccuracy.extract_entities output = Option.none ∨
        EntityExtractionAccuracy.extract_entities ground_truth = Option.none) →
      (EntityExtractionAccuracy.evaluate threshold sev output ground_truth).score = 0 ∧
      (EntityExtractionAccuracy.evaluate threshold sev output ground_truth).severity = sev ∧
      (EntityExtractionAccuracy.evaluate threshold sev output ground_truth).detailError =
        some "Missing entities field" ∧
      (EntityExtractionAccuracy.evaluate threshold sev output ground_truth).passed =
        decide ((0 : ℚ) ≥ threshold)) ∧
    (∀ p t e, EntityExtractionAccuracy.extract_entities output = some p →
      EntityExtractionAccuracy.extract_entities ground_truth = some t →
      EntityExtractionAccuracy.calculate_f1 p t = .error e →
      (EntityExtractionAccuracy.evaluate threshold sev output ground_truth).score = 0 ∧
      (EntityExtractionAccuracy.evaluate threshold sev output ground_truth).passed = false ∧
      (EntityExtractionAccuracy.evaluate threshold sev output ground_truth).severity =
        Severity.critical ∧
      (EntityExtractionAccuracy.evaluate threshold sev output ground_truth).detailError =
        some e) := by
  refine ⟨?_, ?_, ?_⟩
  · intro h
    cases hout : IntentAccuracy.extract_intent output with
    | none =>
        unfold IntentAccuracy.evaluate
        rw [hout]
        exact ⟨rfl, rfl, rfl, rfl⟩
    | some p =>
        cases hgt : IntentAccuracy.extract_intent ground_truth with
        | none =>
            unfold IntentAccuracy.evaluate
            rw [hout, hgt]
            exact ⟨rfl, rfl, rfl, rfl⟩
        | some t =>
            rcases h with h | h
            · rw [hout] at h; cases h
            · rw [hgt] at h; cases h
  · intro h
    cases hout : EntityExtractionAccuracy.extract_entities output with
    | none =>
        unfold EntityExtractionAccuracy.evaluate
        rw [hout]
        exact ⟨rfl, rfl, rfl, rfl⟩
    | some p =>
        cases hgt : EntityExtractionAccuracy.extract_entities ground_truth with
        | none =>
            unfold EntityExtractionAccuracy.evaluate
            rw [hout, hgt]
            exact ⟨rfl, rfl, rfl, rfl⟩
        | some t =>
            rcases h with h | h
            · rw [hout] at h; cases h
            · rw [hgt] at h; cases h
  · intro p t e hp ht hf1
    unfold EntityExtractionAccuracy.evaluate
    rw [hp, ht]
    simp [MetricResult.detailError, hf1, List.lookup]

/-- Closed witness for the amended C3 at the missing-entities-field input. -/
theorem C3_witness :
    (EntityExtractionAccuracy.evaluate (85 / 100) Severity.warning
        (.prim (.str "no entities here"))
        (.dict [("entities", .dictP [("amount", .int 50)])])).score = 0 ∧
    (EntityExtractionAccuracy.evaluate (85 / 100) Severity.warning
        (.prim (.str "no entities here"))
        (.dict [("entities", .dictP [("amount", .int 50)])])).severity =
      Severity.warning ∧
    (EntityExtractionAccuracy.evaluate (85 / 100) Severity.warning
        (.prim (.str "no entities here"))
        (.dict [("entities", .dictP [("amount", .int 50)])])).detailError =
      some "Missing entities field" ∧
    (EntityExtractionAccuracy.evaluate (85 / 100) Severity.warning
        (.prim (.str "no entities here"))
        (.dict [("entities", .dictP [("amount", .int 50)])])).passed =
      decide ((0 : ℚ) ≥ (85 / 100 : ℚ)) :=
  (C3_failure_result_shape (85 / 100) Severity.warning
      (.prim (.str "no entities here"))
      (.dict [("entities", .dictP [("amount", .int 50)])])).2.1 (Or.inl rfl)

/-- Claim C4: during `evaluate()`, if the agent invocation raises for a test
case, a `MetricResult` is synthesized for that single test case with score
0.0, severity CRITICAL and the exception text under `details["error"]`; all
remaining test cases and metrics are still evaluated (every layer holds one
aggregated result per registered metric, each aggregated over the full
test-case list), and no such per-test-case exception propagates out of
`evaluate()`. -/
theorem C4_agent_error_isolation (ev : AgentEvaluator) (tcs : Option (List TestCase))
    (m : Metric) (tc : TestCase) (e : String)
    (hne : resolveCases ev tcs ≠ []) (hcnt : ev.registry.count ≠ 0)
    (hagent : ev.agent tc.input = .error e) :
    evalTestCase ev.agent m tc =
      { metric_name := m.name, layer := m.layer, score := 0, threshold := m.threshold,
        passed := false, severity := Severity.critical,
        details := [("error", DVal.s e)],
        remediation := some ("Fix error in " ++ m.name ++ " evaluation: " ++ e) } ∧
    (ev.evaluate tcs).toOption.isSome = true ∧
    (∀ r, ev.evaluate tcs = .ok r →
      ∀ l ∈ r.layers, l.metrics.length = (ev.registry.bucket l.layer_number).length ∧
        ∀ mr ∈ l.metrics, mr.detailTotal = some (resolveCases ev tcs).length) := by
  have hok : ev.evaluate tcs = .ok (evaluateBody ev (resolveCases ev tcs)) :=
    (evaluate_ok_iff ev tcs _).mpr ⟨hne, hcnt, rfl⟩
  refine ⟨?_, ?_, ?_⟩
  · unfold evalTestCase
    rw [hagent]
    rfl
  · rw [hok]
    rfl
  · intro r hr l hl
    rw [hok] at hr
    injection hr with hr
    subst hr
    have hl' : l ∈ (List.range 5).map
        (fun i => evaluate_layer ev (i + 1) (resolveCases ev tcs)) := hl
    obtain ⟨i, -, rfl⟩ := List.mem_map.mp hl'
    rw [evaluate_layer_number]
    by_cases hb : ev.registry.bucket (i + 1) = []
    · rw [evaluate_layer_vacuous ev (i + 1) _ hb, hb]
      exact ⟨rfl, by intro mr hmr; cases hmr⟩
    · rw [evaluate_layer_metrics ev (i + 1) _ hb]
      constructor
      · simp [layerMetricResults]
      · intro mr hmr
        obtain ⟨m', -, rfl⟩ := List.mem_map.mp hmr
        rw [aggregateMetric_detailTotal]
        simp

/-- Closed witness for C4: a concrete agent that raises on the second test
case yields the synthesized CRITICAL result there, and `evaluate` still
succeeds. -/
theorem C4_witness :
    evalTestCase witEvFlaky.agent witIntentMetric witTC2 =
      { metric_name := witIntentMetric.name, layer := witIntentMetric.layer,
        score := 0, threshold := witIntentMetric.threshold,
        passed := false, severity := Severity.critical,
        details := [("error", DVal.s "simulated agent crash")],
        remediation := some ("Fix error in " ++ witIntentMetric.name ++ " evaluation: " ++
          "simulated agent crash") } ∧
    (witEvFlaky.evaluate Option.none).toOption.isSome = true :=
  ⟨(C4_agent_error_isolation witEvFlaky Option.none witIntentMetric witTC2
      "simulated agent crash" (by decide) (by decide) rfl).1,
   (C4_agent_error_isolation witEvFlaky Option.none witIntentMetric witTC2
      "simulated agent crash" (by decide) (by decide) rfl).2.1⟩

/-- Claim C5: a layer with zero registered metrics yields a vacuous
`LayerResult` with score 1.0, status "pass" and no metrics, regardless of
the test cases and the other layers; its derived `passed` property is
true. -/
theorem C5_vacuous_layer (ev : AgentEvaluator) (tcs : Option (List TestCase))
    (r : EvaluationResult) (L : Nat) (h1 : 1 ≤ L) (h5 : L ≤ 5)
    (hb : ev.registry.bucket L = []) (h : ev.evaluate tcs = .ok r) :
    r.get_layer_by_number L =
      some { layer_number := L, layer_name := LAYER_NAMES L, score := 1,
             status := "pass", metrics := [] } ∧
    (∀ lr ∈ r.layers, lr.layer_number = L →
      lr.passed = true ∧ lr.score = 1 ∧ lr.status = "pass") := by
  obtain ⟨-, -, rfl⟩ := (evaluate_ok_iff ev tcs r).mp h
  have hlay : (evaluateBody ev (resolveCases ev tcs)).layers =
      [evaluate_layer ev 1 (resolveCases ev tcs), evaluate_layer ev 2 (resolveCases ev tcs),
       evaluate_layer ev 3 (resolveCases ev tcs), evaluate_layer ev 4 (resolveCases ev tcs),
       evaluate_layer ev 5 (resolveCases ev tcs)] := rfl
  constructor
  · show ((evaluateBody ev (resolveCases ev tcs)).layers.find?
      (fun l => decide (l.layer_number = L))) = _
    rw [hlay]
    interval_cases L <;>
      simp [List.find?, evaluate_layer_number, evaluate_layer_vacuous _ _ _ hb]
  · intro lr hmem heq
    rw [hlay] at hmem
    have hvac : evaluate_layer ev L (resolveCases ev tcs) =
        { layer_number := L, layer_name := LAYER_NAMES L, score := 1,
          status := "pass", metrics := [] } :=
      evaluate_layer_vacuous ev L _ hb
    simp only [List.mem_cons, List.mem_singleton] at hmem
    rcases hmem with rfl | rfl | rfl | rfl | rfl | h0 <;>
      first
        | (rw [evaluate_layer_number] at heq; subst heq; rw [hvac]; exact ⟨rfl, rfl, rfl⟩)
        | cases h0

/-- Closed witness for C5 at layer 3 of the concrete evaluation (no metric
registered there). -/
theorem C5_witness :
    witResult1.get_layer_by_number 3 =
      some { layer_number := 3, layer_name := LAYER_NAMES 3, score := 1,
             status := "pass", metrics := [] } :=
  (C5_vacuous_layer witEv (some [witTC1]) witResult1 3 (by decide) (by decide) rfl rfl).1

/-- Claim C6: every completed `evaluate()` call returns exactly five
`LayerResult`s ordered by layer number 1..5, with `overall_score` the
unweighted arithmetic mean of the five layer scores, each vacuous layer
contributing 1.0. -/
theorem C6_overall_mean (ev : AgentEvaluator) (tcs : Option (List TestCase))
    (r : EvaluationResult) (h : ev.evaluate tcs = .ok r) :
    r.layers.map (fun l => l.layer_number) = [1, 2, 3, 4, 5] ∧
    r.overall_score = (r.layers.map (fun l => l.score)).sum / 5 ∧
    (∀ l ∈ r.layers, ev.registry.bucket l.layer_number = [] → l.score = 1) := by
  obtain ⟨-, -, rfl⟩ := (evaluate_ok_iff ev tcs r).mp h
  have hlay : (evaluateBody ev (resolveCases ev tcs)).layers =
      [evaluate_layer ev 1 (resolveCases ev tcs), evaluate_layer ev 2 (resolveCases ev tcs),
       evaluate_layer ev 3 (resolveCases ev tcs), evaluate_layer ev 4 (resolveCases ev tcs),
       evaluate_layer ev 5 (resolveCases ev tcs)] := rfl
  refine ⟨?_, ?_, ?_⟩
  · rw [hlay]
    simp [evaluate_layer_number]
  · show ((evaluateBody ev (resolveCases ev tcs)).layers.map (fun l => l.score)).sum /
        (((evaluateBody ev (resolveCases ev tcs)).layers.length : ℕ) : ℚ) = _
    rw [hlay]
    norm_num
  · intro l hmem hb
    rw [hlay] at hmem
    simp only [List.mem_cons, List.mem_singleton] at hmem
    rcases hmem with rfl | rfl | rfl | rfl | rfl | h0 <;>
      first
        | (rw [evaluate_layer_number] at hb; rw [evaluate_layer_vacuous _ _ _ hb])
        | cases h0

/-- Closed witness for C6 at the concrete one-metric evaluation. -/
theorem C6_witness :
    witResult1.layers.map (fun l => l.layer_number) = [1, 2, 3, 4, 5] ∧
    witResult1.overall_score = (witResult1.layers.map (fun l => l.score)).sum / 5 :=
  ⟨(C6_overall_mean witEv (some [witTC1]) witResult1 rfl).1,
   (C6_overall_mean witEv (some [witTC1]) witResult1 rfl).2.1⟩

theorem codePrecision_eq_spec (s u : Finset (String × PyPrim)) :
    (if ((s ∩ u).card : ℚ) + ((s \ u).card : ℚ) > 0
      then ((s ∩ u).card : ℚ) / (((s ∩ u).card : ℚ) + ((s \ u).card : ℚ)) else 0) =
    specPrecision s u := by
  have hcard : ((s ∩ u).card : ℚ) + ((s \ u).card : ℚ) = (s.card : ℚ) := by
    exact_mod_cast Finset.card_inter_add_card_sdiff s u
  rw [hcard]
  unfold specPrecision
  by_cases hs : s = ∅
  · subst hs
    simp
  · have hpos : (0 : ℚ) < (s.card : ℚ) := by
      exact_mod_cast Finset.card_pos.mpr (Finset.nonempty_iff_ne_empty.mpr hs)
    rw [if_pos hpos, if_neg hs]

theorem codeRecall_eq_spec (s u : Finset (String × PyPrim)) :
    (if ((s ∩ u).card : ℚ) + ((u \ s).card : ℚ) > 0
      then ((s ∩ u).card : ℚ) / (((s ∩ u).card : ℚ) + ((u \ s).card : ℚ)) else 0) =
    specRecall s u := by
  have hcard : ((s ∩ u).card : ℚ) + ((u \ s).card : ℚ) = (u.card : ℚ) := by
    have h := Finset.card_inter_add_card_sdiff u s
    rw [Finset.inter_comm u s] at h
    exact_mod_cast h
  rw [hcard]
  unfold specRecall
  by_cases hu : u = ∅
  · subst hu
    simp
  · have hpos : (0 : ℚ) < (u.card : ℚ) := by
      exact_mod_cast Finset.card_pos.mpr (Finset.nonempty_iff_ne_empty.mpr hu)
    rw [if_pos hpos, if_neg hu]

theorem specF1_empty_pred (u : Finset (String × PyPrim)) : specF1 ∅ u = 0 := by
  unfold specF1 specPrecision specRecall
  by_cases hu : u = ∅ <;> simp [hu]

theorem specF1_empty_exp (s : Finset (String × PyPrim)) : specF1 s ∅ = 0 := by
  unfold specF1 specPrecision specRecall
  by_cases hs : s = ∅ <;> simp [hs]

theorem calculate_f1_of_ne (p t : List (String × PyPrim)) (ht : t ≠ []) :
    EntityExtractionAccuracy.calculate_f1 (.dictP p) (.dictP t) =
      .ok (specF1 p.toFinset t.toFinset, specPrecision p.toFinset t.toFinset,
           specRecall p.toFinset t.toFinset) := by
  have htr : (PyVal.dictP t).truthy = true := by
    cases t with
    | nil => exact absurd rfl ht
    | cons a as => rfl
  unfold EntityExtractionAccuracy.calculate_f1
  rw [htr]
  simp only [Bool.not_true, Bool.false_eq_true, if_false]
  rw [show pyItemsSet (PyVal.dictP p) = Except.ok p.toFinset from rfl,
      show pyItemsSet (PyVal.dictP t) = Except.ok t.toFinset from rfl]
  refine congrArg Except.ok ?_
  refine Prod.ext ?_ (Prod.ext ?_ ?_)
  · show (if _ then (0 : ℚ)
      else 2 * ((if ((p.toFinset ∩ t.toFinset).card : ℚ) + ((p.toFinset \ t.toFinset).card : ℚ) > 0
          then ((p.toFinset ∩ t.toFinset).card : ℚ) /
            (((p.toFinset ∩ t.toFinset).card : ℚ) + ((p.toFinset \ t.toFinset).card : ℚ))
          else 0) *
        (if ((p.toFinset ∩ t.toFinset).card : ℚ) + ((t.toFinset \ p.toFinset).card : ℚ) > 0
          then ((p.toFinset ∩ t.toFinset).card : ℚ) /
            (((p.toFinset ∩ t.toFinset).card : ℚ) + ((t.toFinset \ p.toFinset).card : ℚ))
          else 0)) / _) = specF1 p.toFinset t.toFinset
    rw [codePrecision_eq_spec, codeRecall_eq_spec]
    unfold specF1
    by_cases h0 : specPrecision p.toFinset t.toFinset + specRecall p.toFinset t.toFinset = 0
    · rw [if_pos h0, if_pos h0]
    · rw [if_neg h0, if_neg h0]
      ring
  · exact codePrecision_eq_spec p.toFinset t.toFinset
  · exact codeRecall_eq_spec p.toFinset t.toFinset

/-- Claim C7: for the F1-based structured-field-overlap metric, both sets
empty gives F1 = 1 with precision = recall = 1; non-empty expected with
empty predicted gives F1 = 0; and outside the doubly-empty case the score
equals the spec formula `2·P·R/(P+R)` (0 when `P+R = 0`) over set-overlap
precision and recall. -/
theorem C7_f1_cases (pred exp : List (String × PyPrim)) :
    (pred = [] ∧ exp = [] →
      EntityExtractionAccuracy.calculate_f1 (.dictP pred) (.dictP exp) = .ok (1, 1, 1)) ∧
    (exp.toFinset ≠ ∅ ∧ pred.toFinset = ∅ →
      f1Score (EntityExtractionAccuracy.calculate_f1 (.dictP pred) (.dictP exp)) = some 0) ∧
    (¬(pred.toFinset = ∅ ∧ exp.toFinset = ∅) →
      f1Score (EntityExtractionAccuracy.calculate_f1 (.dictP pred) (.dictP exp)) =
        some (specF1 pred.toFinset exp.toFinset)) := by
  have hmain : ∀ _ : exp ≠ [],
      f1Score (EntityExtractionAccuracy.calculate_f1 (.dictP pred) (.dictP exp)) =
        some (specF1 pred.toFinset exp.toFinset) := by
    intro ht
    rw [calculate_f1_of_ne pred exp ht]
    rfl
  refine ⟨?_, ?_, ?_⟩
  · rintro ⟨rfl, rfl⟩
    rfl
  · rintro ⟨hexp, hpred⟩
    have hexp' : exp ≠ [] := fun h => hexp (by simp [h])
    rw [hmain hexp', hpred, specF1_empty_pred]
  · intro hne
    by_cases hexp : exp = []
    · subst hexp
      have hpred : pred ≠ [] := by
        intro h
        exact hne ⟨by simp [h], by simp⟩
      have hptr : (PyVal.dictP pred).truthy = true := by
        cases pred with
        | nil => exact absurd rfl hpred
        | cons a as => rfl
      unfold f1Score EntityExtractionAccuracy.calculate_f1
      simp only [PyVal.truthy, List.isEmpty_nil, Bool.not_true, Bool.false_eq_true, if_false,
        Bool.not_false, if_true, hptr]
      simp [specF1_empty_exp, hpred]
    · exact hmain hexp

/-- Closed witness for C7: both conjunct families at concrete entity
sets. -/
theorem C7_witness :
    EntityExtractionAccuracy.calculate_f1 (.dictP []) (.dictP []) = .ok (1, 1, 1) ∧
    f1Score (EntityExtractionAccuracy.calculate_f1 (.dictP [])
        (.dictP [("amount", .int 50)])) = some 0 :=
  ⟨(C7_f1_cases [] []).1 ⟨rfl, rfl⟩,
   (C7_f1_cases [] [("amount", .int 50)]).2.1 ⟨by decide, by decide⟩⟩

/-- Claim C8: for the latency metric with extracted actual latency `a > 0`
and ceiling `m > 0`, the score is 1.0 when `a ≤ m` and `m/a` clamped to
`[0,1]` when `a > m`; in particular `a = m` gives 1.0 and `a = 2·m` gives
0.5. -/
theorem C8_latency_scoring (max_latency_ms threshold : ℚ) (sev : Severity)
    (output ground_truth : PyData) (kwargs : APILatency.LatencyKwargs) (a : ℚ)
    (hm : 0 < max_latency_ms) (ha : 0 < a)
    (hex : (APILatency.extract_latency output kwargs).bind pyNumQ = some a) :
    (a ≤ max_latency_ms →
      (APILatency.evaluate max_latency_ms threshold sev output ground_truth kwargs).score = 1) ∧
    (max_latency_ms < a →
      (APILatency.evaluate max_latency_ms threshold sev output ground_truth kwargs).score =
        max 0 (min 1 (max_latency_ms / a))) ∧
    (a = max_latency_ms →
      (APILatency.evaluate max_latency_ms threshold sev output ground_truth kwargs).score = 1) ∧
    (a = 2 * max_latency_ms →
      (APILatency.evaluate max_latency_ms threshold sev output ground_truth kwargs).score =
        1 / 2) := by
  cases hv : APILatency.extract_latency output kwargs with
  | none =>
      rw [hv] at hex
      cases hex
  | some v =>
      rw [hv] at hex
      simp only [Option.some_bind] at hex
      have hvn : ¬v = PyVal.prim PyPrim.pynone := by
        intro h
        rw [h] at hex
        cases hex
      unfold APILatency.evaluate
      rw [hv]
      simp only [if_neg hvn, hex]
      refine ⟨?_, ?_, ?_, ?_⟩
      · intro h
        show max 0 (min 1 (if a ≤ max_latency_ms then (1 : ℚ) else max_latency_ms / a)) = 1
        rw [if_pos h]
        norm_num
      · intro h
        show max 0 (min 1 (if a ≤ max_latency_ms then (1 : ℚ) else max_latency_ms / a)) = _
        rw [if_neg (not_le.mpr h)]
      · intro h
        subst h
        show max 0 (min 1 (if a ≤ a then (1 : ℚ) else a / a)) = 1
        rw [if_pos le_rfl]
        norm_num
      · intro h
        subst h
        show max 0 (min 1 (if 2 * max_latency_ms ≤ max_latency_ms then (1 : ℚ)
          else max_latency_ms / (2 * max_latency_ms))) = 1 / 2
        have hlt : ¬(2 * max_latency_ms ≤ max_latency_ms) := by nlinarith
        rw [if_neg hlt]
        have hdiv : max_latency_ms / (2 * max_latency_ms) = 1 / 2 := by
          field_simp
          ring
        rw [hdiv]
        norm_num

/-- Closed witness for C8: latency 4000 against ceiling 2000 scores 0.5. -/
theorem C8_witness :
    (APILatency.evaluate 2000 (95 / 100) Severity.warning witLatencyOutput
        (PyData.dict []) APILatency.noKwargs).score = 1 / 2 :=
  (C8_latency_scoring 2000 (95 / 100) Severity.warning witLatencyOutput (PyData.dict [])
      APILatency.noKwargs 4000 (by norm_num) (by norm_num) rfl).2.2.2 (by norm_num)

theorem aggregateMetric_score_perm (ag : Agent) (m : Metric) (cs cs' : List TestCase)
    (hp : cs.Perm cs') :
    (aggregateMetric m (cs.map (evalTestCase ag m))).score =
      (aggregateMetric m (cs'.map (evalTestCase ag m))).score := by
  show ((cs.map (evalTestCase ag m)).map (fun r => r.score)).sum /
      ((cs.map (evalTestCase ag m)).length : ℚ) =
    ((cs'.map (evalTestCase ag m)).map (fun r => r.score)).sum /
      ((cs'.map (evalTestCase ag m)).length : ℚ)
  have hpm : ((cs.map (evalTestCase ag m)).map (fun r => r.score)).Perm
      ((cs'.map (evalTestCase ag m)).map (fun r => r.score)) :=
    (hp.map (evalTestCase ag m)).map (fun r => r.score)
  rw [hpm.sum_eq]
  simp only [List.length_map]
  rw [hp.length_eq]

theorem layerMetricResults_scores_perm (ev : AgentEvaluator) (n : Nat)
    (cs cs' : List TestCase) (hp : cs.Perm cs') :
    (layerMetricResults ev n cs).map (fun m => m.score) =
      (layerMetricResults ev n cs').map (fun m => m.score) := by
  unfold layerMetricResults
  rw [List.map_map, List.map_map]
  exact List.map_congr_left
    (fun m _ => aggregateMetric_score_perm ev.agent m cs cs' hp)

theorem evaluate_layer_components_perm (ev : AgentEvaluator) (n : Nat)
    (cs cs' : List TestCase) (hp : cs.Perm cs') :
    (evaluate_layer ev n cs).score = (evaluate_layer ev n cs').score ∧
    (evaluate_layer ev n cs).metrics.map (fun m => m.score) =
      (evaluate_layer ev n cs').metrics.map (fun m => m.score) := by
  by_cases hb : (ev.registry.bucket n).isEmpty
  · simp [evaluate_layer, hb]
  · constructor
    · unfold evaluate_layer
      rw [if_neg hb, if_neg hb]
      show ((layerMetricResults ev n cs).map (fun m => m.score)).sum /
          ((layerMetricResults ev n cs).length : ℚ) =
        ((layerMetricResults ev n cs').map (fun m => m.score)).sum /
          ((layerMetricResults ev n cs').length : ℚ)
      have hlen : (layerMetricResults ev n cs).length = (layerMetricResults ev n cs').length := by
        simp [layerMetricResults]
      rw [layerMetricResults_scores_perm ev n cs cs' hp, hlen]
    · have hb' : ev.registry.bucket n ≠ [] := fun h => by
        rw [h] at hb
        exact hb rfl
      rw [evaluate_layer_metrics ev n cs hb', evaluate_layer_metrics ev n cs' hb']
      exact layerMetricResults_scores_perm ev n cs cs' hp

theorem evaluateBody_layers (ev : AgentEvaluator) (cs : List TestCase) :
    (evaluateBody ev cs).layers = (List.range 5).map (fun i => evaluate_layer ev (i + 1) cs) :=
  rfl

theorem evaluateBody_overall (ev : AgentEvaluator) (cs : List TestCase) :
    (evaluateBody ev cs).overall_score =
      (((List.range 5).map (fun i => evaluate_layer ev (i + 1) cs)).map (fun l => l.score)).sum /
        ((((List.range 5).map (fun i => evaluate_layer ev (i + 1) cs)).length : ℕ) : ℚ) :=
  rfl

/-- Claim C9: for a fixed agent, metric set and test-case list, every
permutation of the test-case list gives the same metric scores, layer scores
and overall score (exactly, over the `ℚ` aggregation of this model), because
every aggregate is an unweighted mean over the same multiset of per-test-case
scores. -/
theorem C9_order_invariance (ev : AgentEvaluator) (cs cs' : List TestCase)
    (hp : cs.Perm cs') (hne : cs ≠ []) (hcnt : ev.registry.count ≠ 0) :
    (ev.evaluate (some cs)).toOption.isSome = true ∧
    (ev.evaluate (some cs)).toOption.map (fun r => r.overall_score) =
      (ev.evaluate (some cs')).toOption.map (fun r => r.overall_score) ∧
    (ev.evaluate (some cs)).toOption.map (fun r => r.layers.map (fun l => l.score)) =
      (ev.evaluate (some cs')).toOption.map (fun r => r.layers.map (fun l => l.score)) ∧
    (ev.evaluate (some cs)).toOption.map
        (fun r => r.layers.map (fun l => l.metrics.map (fun m => m.score))) =
      (ev.evaluate (some cs')).toOption.map
        (fun r => r.layers.map (fun l => l.metrics.map (fun m => m.score))) := by
  have hne' : cs' ≠ [] := by
    intro h
    rw [h] at hp
    exact hne hp.eq_nil
  have hres : resolveCases ev (some cs) = cs := by
    cases cs with
    | nil => exact absurd rfl hne
    | cons a as => rfl
  have hres' : resolveCases ev (some cs') = cs' := by
    cases cs' with
    | nil => exact absurd rfl hne'
    | cons a as => rfl
  have hok : ev.evaluate (some cs) = .ok (evaluateBody ev cs) := by
    rw [evaluate_ok_iff, hres]
    exact ⟨hne, hcnt, rfl⟩
  have hok' : ev.evaluate (some cs') = .ok (evaluateBody ev cs') := by
    rw [evaluate_ok_iff, hres']
    exact ⟨hne', hcnt, rfl⟩
  have hlscores : ((List.range 5).map (fun i => evaluate_layer ev (i + 1) cs)).map
        (fun l => l.score) =
      ((List.range 5).map (fun i => evaluate_layer ev (i + 1) cs')).map
        (fun l => l.score) := by
    rw [List.map_map, List.map_map]
    exact List.map_congr_left
      (fun i _ => (evaluate_layer_components_perm ev (i + 1) cs cs' hp).1)
  have hlmets : ((List.range 5).map (fun i => evaluate_layer ev (i + 1) cs)).map
        (fun l => l.metrics.map (fun m => m.score)) =
      ((List.range 5).map (fun i => evaluate_layer ev (i + 1) cs')).map
        (fun l => l.metrics.map (fun m => m.score)) := by
    rw [List.map_map, List.map_map]
    exact List.map_congr_left
      (fun i _ => (evaluate_layer_components_perm ev (i + 1) cs cs' hp).2)
  have hoverall : (evaluateBody ev cs).overall_score =
      (evaluateBody ev cs').overall_score := by
    rw [evaluateBody_overall, evaluateBody_overall, hlscores]
    simp [List.length_map]
  have hlay1 : (evaluateBody ev cs).layers.map (fun l => l.score) =
      (evaluateBody ev cs').layers.map (fun l => l.score) := by
    rw [evaluateBody_layers, evaluateBody_layers]
    exact hlscores
  have hlay2 : (evaluateBody ev cs).layers.map (fun l => l.metrics.map (fun m => m.score)) =
      (evaluateBody ev cs').layers.map (fun l => l.metrics.map (fun m => m.score)) := by
    rw [evaluateBody_layers, evaluateBody_layers]
    exact hlmets
  rw [hok, hok']
  refine ⟨rfl, ?_, ?_, ?_⟩ <;> simp only [Except.toOption, Option.map_some']
  · exact congrArg some hoverall
  · exact congrArg some hlay1
  · exact congrArg some hlay2

/-- Closed witness for C9: swapping two concrete test cases leaves the
overall score unchanged. -/
theorem C9_witness :
    (witEv.evaluate (some [witTC1, witTC2])).toOption.isSome = true ∧
    (witEv.evaluate (some [witTC1, witTC2])).toOption.map (fun r => r.overall_score) =
      (witEv.evaluate (some [witTC2, witTC1])).toOption.map (fun r => r.overall_score) :=
  ⟨(C9_order_invariance witEv [witTC1, witTC2] [witTC2, witTC1]
      (List.Perm.swap witTC2 witTC1 []) (List.cons_ne_nil _ _) (by decide)).1,
   (C9_order_invariance witEv [witTC1, witTC2] [witTC2, witTC1]
      (List.Perm.swap witTC2 witTC1 []) (List.cons_ne_nil _ _) (by decide)).2.1⟩

theorem compareLoop_agent_id (tcs : Option (List TestCase)) :
    ∀ (agents : List Agent) (ev : AgentEvaluator) (i : Nat)
      (acc : List EvaluationResult) (p : List EvaluationResult × AgentEvaluator),
      agents ≠ [] → compareLoop ev tcs agents i acc = .ok p →
      p.2.agent_id = "agent_" ++ toString (i + agents.length) := by
  intro agents
  induction agents with
  | nil =>
      intro ev i acc p hne
      exact absurd rfl hne
  | cons a rest ih =>
      intro ev i acc p hne hloop
      simp only [compareLoop] at hloop
      cases hev : AgentEvaluator.evaluate
          { ev with agent := a, agent_id := "agent_" ++ toString (i + 1) } tcs with
      | error e =>
          rw [hev] at hloop
          cases hloop
      | ok r =>
          rw [hev] at hloop
          cases rest with
          | nil =>
              simp only [compareLoop] at hloop
              injection hloop with h
              rw [← h]
              rfl
          | cons b rs =>
              have hrec := ih _ (i + 1) (r :: acc) p (List.cons_ne_nil _ _) hloop
              rw [hrec]
              have : i + 1 + (b :: rs).length = i + (a :: b :: rs).length := by
                simp [List.length_cons]
                omega
              rw [this]

/-- Claim C10: after a successful `compare(agents, dataset)` call with
`n ≥ 1` agents, the evaluator's `agent` attribute is restored to its pre-call
value, but `agent_id` is left permanently overwritten with
`"agent_n"` (the last loop iteration's value). -/
theorem C10_compare_frame (ev : AgentEvaluator) (agents : List Agent)
    (ds : Option (List TestCase)) (p : List EvaluationResult × AgentEvaluator)
    (hne : agents ≠ []) (h : ev.compare agents ds = .ok p) :
    p.2.agent = ev.agent ∧ p.2.agent_id = "agent_" ++ toString agents.length := by
  simp only [AgentEvaluator.compare] at h
  cases hloop : compareLoop ev (resolveCompareDataset ds) agents 0 [] with
  | error e =>
      rw [hloop] at h
      cases h
  | ok q =>
      rw [hloop] at h
      obtain ⟨results, ev'⟩ := q
      injection h with h
      subst h
      refine ⟨rfl, ?_⟩
      have hid := compareLoop_agent_id (resolveCompareDataset ds) agents ev 0 []
        (results, ev') hne hloop
      simpa using hid

/-- Closed witness for C10: comparing two concrete agents returns with the
original agent restored and `agent_id = "agent_2"`. -/
theorem C10_witness :
    witComparePair.2.agent = witEv.agent ∧
    witComparePair.2.agent_id = "agent_" ++ toString witCompareAgents.length :=
  C10_compare_frame witEv witCompareAgents Option.none witComparePair
    (List.cons_ne_nil _ _) rfl

end MMAP
